import Mathlib

/-!
Verification development for the school management system in `index.py`.

The sqlite database is embedded as lists of rows (one list per table), the
process-global `logged_in_user` as an `Option` field of the state, and the
operations of `SchoolManagementSystem` as Lean functions over that state.
Python exceptions (`PermissionError`, `ValueError`, uncaught
`sqlite3.IntegrityError`) become an `Except` error type; a returned `.ok`
state is the committed database, so an `.error` result leaves the caller's
state untouched, matching the per-call commit discipline of the source.

Modelling notes, all traceable to the source:
  * `hashlib.sha256(...).hexdigest()` is external library code, so every
    operation that hashes takes the hash as an explicit function parameter.
  * sqlite runs with foreign keys disabled (the source never issues
    `PRAGMA foreign_keys`), so no foreign-key check is modelled; the
    `CHECK`/`UNIQUE`/`PRIMARY KEY` constraints that the inserts and updates
    can actually trip are modelled in the insert helpers.
  * The sqlite `REAL` grade column is modelled with `Int` grades; the claims
    under verification only distinguish `NULL` grades, `0` (falsy when the
    report renders it) and in-range values, never fractional values.
  * `AUTOINCREMENT` row ids are modelled with per-table counters in the state.
-/

namespace SchoolMS

structure UserRow where
  username : String
  password : String
  role : String
  name : String
  email : String
  phone : Option String
deriving DecidableEq, Repr

structure StudentRow where
  student_id : String
  username : String
  grade_level : Int
  assigned_teacher : Option String
deriving DecidableEq, Repr

structure CourseRow where
  course_id : Nat
  course_name : String
  teacher_username : Option String
  credits : Int
deriving DecidableEq, Repr

structure EnrollmentRow where
  enrollment_id : Nat
  student_username : String
  course_id : Nat
  grade : Option Int
deriving DecidableEq, Repr

structure AttendanceRow where
  attendance_id : Nat
  student_username : String
  course_id : Nat
  date : String
  status : String
deriving DecidableEq, Repr

structure TimetableRow where
  timetable_id : Nat
  course_id : Nat
  day : String
  start_time : String
  end_time : String
deriving DecidableEq, Repr

structure LoggedUser where
  username : String
  role : String
  name : String
deriving DecidableEq, Repr

structure SMS where
  users : List UserRow
  students : List StudentRow
  courses : List CourseRow
  enrollments : List EnrollmentRow
  attendance : List AttendanceRow
  timetable : List TimetableRow
  logged_in_user : Option LoggedUser
  next_course_id : Nat
  next_enrollment_id : Nat
  next_attendance_id : Nat
  next_timetable_id : Nat
deriving DecidableEq, Repr

inductive SMSError where
  | permissionError (msg : String)
  | valueError (msg : String)
  | integrityError (msg : String)
deriving DecidableEq, Repr

/-- The state after `drop_tables`, `create_tables` and `initialize_admin`:
every table empty except for the seeded admin user. -/
def initState (hash : String → String) : SMS :=
  { users := [⟨"admin", hash "admin123", "admin", "System Administrator",
              "admin@school.edu", none⟩],
    students := [], courses := [], enrollments := [], attendance := [],
    timetable := [], logged_in_user := none,
    next_course_id := 1, next_enrollment_id := 1, next_attendance_id := 1,
    next_timetable_id := 1 }

/-- Python `re.match(r"[^@]+@[^@]+\.[^@]+", email)`: the domain part after
the first `@` needs a nonempty `@`-free run, a dot, and one more non-`@`
character (`re.match` anchors only the start, so trailing text is allowed).
`seen` records whether at least one `[^@]` character precedes the dot. -/
def matchDomain : List Char → Bool → Bool
  | [], _ => false
  | c :: rest, seen =>
    if c == '@' then false
    else (c == '.' && seen && (match rest with
            | [] => false
            | c2 :: _ => c2 != '@')) || matchDomain rest true

/-- `SchoolManagementSystem.validate_email`. -/
def validate_email (email : String) : Bool :=
  let p := email.data.takeWhile (fun c => c != '@')
  match email.data.dropWhile (fun c => c != '@') with
  | _ :: rest => !p.isEmpty && matchDomain rest false
  | [] => false

/-- `SchoolManagementSystem.validate_phone` on a truthy phone:
`re.match(r"^\+?\d{10,15}$", phone)`. Python's `$` also matches just before
one terminal newline, hence the `['\n']` alternative. -/
def validate_phone (phone : String) : Bool :=
  let cs := match phone.data with
    | '+' :: rest => rest
    | l => l
  let ds := cs.takeWhile Char.isDigit
  let r := cs.dropWhile Char.isDigit
  decide (10 ≤ ds.length ∧ ds.length ≤ 15) && (r.isEmpty || r == ['\n'])

/-- `SchoolManagementSystem.login`: looks a row up by exact username and
hashed password; on a hit it overwrites the global `logged_in_user` and
returns `True`, otherwise it returns `False` leaving the state alone. -/
def login (hash : String → String) (s : SMS) (username password : String) :
    SMS × Bool :=
  match s.users.find? (fun u => u.username == username &&
      u.password == hash password) with
  | some u => ({ s with logged_in_user := some ⟨u.username, u.role, u.name⟩ },
               true)
  | none => (s, false)

/-- `INSERT INTO users ...`: the constraints this insert can trip are the
`username` primary key, the `email UNIQUE` constraint and the `role` CHECK. -/
def insertUser (s : SMS) (row : UserRow) : Except SMSError SMS :=
  if s.users.any (fun u => u.username == row.username) then
    .error (.integrityError "UNIQUE constraint failed: users.username")
  else if s.users.any (fun u => u.email == row.email) then
    .error (.integrityError "UNIQUE constraint failed: users.email")
  else if !(row.role == "admin" || row.role == "teacher" ||
            row.role == "student") then
    .error (.integrityError "CHECK constraint failed: users")
  else .ok { s with users := s.users ++ [row] }

/-- `INSERT INTO students ...`: `student_id` primary key, `username UNIQUE`,
`grade_level BETWEEN 1 AND 12` CHECK. -/
def insertStudent (s : SMS) (row : StudentRow) : Except SMSError SMS :=
  if s.students.any (fun st => st.student_id == row.student_id) then
    .error (.integrityError "UNIQUE constraint failed: students.student_id")
  else if s.students.any (fun st => st.username == row.username) then
    .error (.integrityError "UNIQUE constraint failed: students.username")
  else if !(decide (1 ≤ row.grade_level) && decide (row.grade_level ≤ 12)) then
    .error (.integrityError "CHECK constraint failed: students")
  else .ok { s with students := s.students ++ [row] }

/-- `INSERT INTO courses (course_name, teacher_username, credits) VALUES (?, ?, 3)`:
no constraint can fail, the id comes from AUTOINCREMENT. -/
def insertCourse (s : SMS) (course_name : String) (teacher : String) : SMS :=
  { s with
    courses := s.courses ++ [⟨s.next_course_id, course_name, some teacher, 3⟩],
    next_course_id := s.next_course_id + 1 }

/-- `INSERT INTO enrollments (student_username, course_id) VALUES (?, ?)`:
the grade is NULL, so the grade CHECK passes and nothing can fail. -/
def insertEnrollment (s : SMS) (su : String) (cid : Nat) : SMS :=
  { s with
    enrollments := s.enrollments ++ [⟨s.next_enrollment_id, su, cid, none⟩],
    next_enrollment_id := s.next_enrollment_id + 1 }

/-- `SELECT course_id FROM courses WHERE teacher_username = ?`. -/
def coursesOf (s : SMS) (t : String) : List CourseRow :=
  s.courses.filter (fun c => c.teacher_username == some t)

/-- Python string `zfill`: left-pad with zeros to width `n`, keeping a
leading sign in front of the padding. -/
def zfill (n : Nat) (s : String) : String :=
  if n ≤ s.length then s
  else match s.data with
    | [] => ⟨List.replicate n '0'⟩
    | c :: rest =>
      if c == '+' || c == '-' then
        ⟨c :: (List.replicate (n - s.length) '0' ++ rest)⟩
      else ⟨List.replicate (n - s.length) '0' ++ s.data⟩

/-- Python `username[-4:]`. -/
def lastFour (s : String) : String :=
  ⟨s.data.drop (s.data.length - 4)⟩

/-- Python `"%02d"`-style formatting of the grade level. -/
def gradeTwoDigits (g : Int) : String :=
  if 0 ≤ g ∧ g < 10 then "0" ++ toString g else toString g

/-- `f"STU{username[-4:].zfill(4)}{grade_level:02d}"`. -/
def studentIdOf (username : String) (g : Int) : String :=
  "STU" ++ zfill 4 (lastFour username) ++ gradeTwoDigits g

/-- Python truthiness of the optional `grade_level` argument. -/
def gradeTruthy : Option Int → Bool
  | some g => g != 0
  | none => false

/-- Python truthiness of an optional string argument. -/
def strTruthy : Option String → Bool
  | some s => s != ""
  | none => false

/-- `if phone and not self.validate_phone(phone)`. -/
def phoneBad : Option String → Bool
  | some p => p != "" && !validate_phone p
  | none => false

/-- The ASCII whitespace characters Python's `str.strip()` removes (its
unicode whitespace is irrelevant to this code base). -/
def pySpace (c : Char) : Bool :=
  c == ' ' || c == '\t' || c == '\n' || c == '\r' || c == '\x0b' || c == '\x0c'

/-- Python `str.strip()`. -/
def pyStrip (s : String) : String :=
  ⟨(((s.data.dropWhile pySpace).reverse).dropWhile pySpace).reverse⟩

/-- Python `str.split(",")` on the character list: splitting an empty string
yields one empty field, and consecutive commas yield empty fields. -/
def splitCommaChars : List Char → List (List Char)
  | [] => [[]]
  | c :: rest =>
    match splitCommaChars rest with
    | [] => [[]]
    | hd :: tl => if c == ',' then [] :: hd :: tl else (c :: hd) :: tl

/-- Python `courses.split(",")`. -/
def pySplitComma (s : String) : List String :=
  (splitCommaChars s.data).map (fun l => ⟨l⟩)

/-- The auto-enrollment loop of `add_user` for a new student: one
`INSERT INTO enrollments` per course currently taught by the assigned
teacher (when that teacher argument is truthy). -/
def studentExtras (un : String) (at2 : Option String) (s2 : SMS) : SMS :=
  match at2 with
  | some t =>
    if t != "" then
      (coursesOf s2 t).foldl (fun acc c => insertEnrollment acc un c.course_id) s2
    else s2
  | none => s2

/-- The course-creation loop of `add_user` for a new teacher: split on
commas, strip, skip empty entries, insert the rest with 3 credits. -/
def teacherExtras (un cs : String) (s1 : SMS) : SMS :=
  (pySplitComma cs).foldl
    (fun acc nm =>
      if pyStrip nm == "" then acc else insertCourse acc (pyStrip nm) un) s1

/-- The database writes of `add_user` (everything after the validations, up
to the `commit`), still reporting constraint violations as
`integrityError`. -/
def add_user_writes (hash : String → String) (s : SMS)
    (un pw rl nm em : String) (ph : Option String) (gl : Option Int)
    (at2 cs : Option String) : Except SMSError SMS :=
  match insertUser s ⟨un, hash pw, rl, nm, em, ph⟩ with
  | .error e => .error e
  | .ok s1 =>
    if rl == "student" && gradeTruthy gl then
      match insertStudent s1 ⟨studentIdOf un (gl.getD 0), un, gl.getD 0, at2⟩ with
      | .error e => .error e
      | .ok s2 => .ok (studentExtras un at2 s2)
    else if rl == "teacher" && strTruthy cs then
      .ok (teacherExtras un (cs.getD "") s1)
    else .ok s1

/-- `SchoolManagementSystem.add_user`: admin gate, field validations, then
the writes, with `sqlite3.IntegrityError` re-raised as
`ValueError(f"User creation failed: {e}")`. -/
def add_user (hash : String → String) (s : SMS)
    (un pw rl nm em : String) (ph : Option String) (gl : Option Int)
    (at2 cs : Option String) : Except SMSError SMS :=
  match s.logged_in_user with
  | none => .error (.permissionError "Admin access required")
  | some lu =>
    if lu.role != "admin" then .error (.permissionError "Admin access required")
    else if un == "" || pw == "" || rl == "" || nm == "" || em == "" then
      .error (.valueError "Missing required fields")
    else if !validate_email em then .error (.valueError "Invalid email format")
    else if phoneBad ph then .error (.valueError "Invalid phone format")
    else
      match add_user_writes hash s un pw rl nm em ph gl at2 cs with
      | .error (.integrityError m) =>
        .error (.valueError ("User creation failed: " ++ m))
      | r => r

/-- `SchoolManagementSystem.enroll_student`: no permission gate at all; the
student must be a `users` row with role `student`, the course id must exist,
then one enrollment row with NULL grade is inserted (duplicates included). -/
def enroll_student (s : SMS) (student_username : String) (course_id : Nat) :
    Except SMSError SMS :=
  if !(s.users.any (fun u => u.username == student_username &&
        u.role == "student")) then
    .error (.valueError "Invalid student username")
  else if !(s.courses.any (fun c => c.course_id == course_id)) then
    .error (.valueError "Invalid course ID")
  else .ok (insertEnrollment s student_username course_id)

/-- `SchoolManagementSystem.assign_grade`: teacher gate, then
`UPDATE enrollments SET grade = ? WHERE student_username = ? AND course_id = ?`.
The grade CHECK is only evaluated on rows the update touches, so an update
of zero rows never fails; the update never checks ownership or existence. -/
def assign_grade (s : SMS) (student_username : String) (course_id : Nat)
    (grade : Int) : Except SMSError SMS :=
  match s.logged_in_user with
  | none => .error (.permissionError "Permission denied")
  | some lu =>
    if lu.role != "teacher" then .error (.permissionError "Permission denied")
    else if s.enrollments.any (fun e => e.student_username == student_username
          && e.course_id == course_id) &&
        !(decide (0 ≤ grade) && decide (grade ≤ 100)) then
      .error (.integrityError "CHECK constraint failed: enrollments")
    else .ok { s with enrollments := s.enrollments.map (fun e =>
      if e.student_username == student_username && e.course_id == course_id
      then { e with grade := some grade } else e) }

/-- `SchoolManagementSystem.mark_attendance`: teacher gate, then an insert
dated by the external clock (`datetime.now().date()` becomes the `today`
argument); still no ownership or existence check. -/
def mark_attendance (s : SMS) (today : String) (student_username : String)
    (course_id : Nat) (status : String) : Except SMSError SMS :=
  match s.logged_in_user with
  | none => .error (.permissionError "Permission denied")
  | some lu =>
    if lu.role != "teacher" then .error (.permissionError "Permission denied")
    else if !(status == "Present" || status == "Absent" || status == "Late") then
      .error (.integrityError "CHECK constraint failed: attendance")
    else .ok { s with
      attendance := s.attendance ++
        [⟨s.next_attendance_id, student_username, course_id, today, status⟩],
      next_attendance_id := s.next_attendance_id + 1 }

/-- `SchoolManagementSystem.add_timetable`: admin gate, then an insert whose
only constraint is the `day` CHECK. -/
def add_timetable (s : SMS) (course_id : Nat)
    (day start_time end_time : String) : Except SMSError SMS :=
  match s.logged_in_user with
  | none => .error (.permissionError "Admin access required")
  | some lu =>
    if lu.role != "admin" then .error (.permissionError "Admin access required")
    else if !(day == "Monday" || day == "Tuesday" || day == "Wednesday" ||
              day == "Thursday" || day == "Friday") then
      .error (.integrityError "CHECK constraint failed: timetable")
    else .ok { s with
      timetable := s.timetable ++
        [⟨s.next_timetable_id, course_id, day, start_time, end_time⟩],
      next_timetable_id := s.next_timetable_id + 1 }

/-- One row of the report query's result set: course name and grade from the
inner join, attendance status/date and timetable day/start/end possibly NULL
from the two left joins. -/
structure ReportRecord where
  course_name : String
  grade : Option Int
  att : Option (String × String)
  tt : Option (String × String × String)
deriving DecidableEq, Repr

/-- A LEFT JOIN against a filtered table: no match yields a single
all-NULL partner, otherwise one partner per matching row. -/
def outerRows {α : Type} : List α → List (Option α)
  | [] => [none]
  | l => l.map some

/-- `a.student_username = e.student_username AND a.course_id = e.course_id`. -/
def attMatches (s : SMS) (su : String) (cid : Nat) : List AttendanceRow :=
  s.attendance.filter (fun a => a.student_username == su && a.course_id == cid)

/-- `t.course_id = e.course_id`. -/
def ttMatches (s : SMS) (cid : Nat) : List TimetableRow :=
  s.timetable.filter (fun t => t.course_id == cid)

/-- The result rows one enrollment contributes to the report query:
inner-join the course, then the two left joins multiply out. -/
def recordsFor (s : SMS) (su : String) (e : EnrollmentRow) :
    List ReportRecord :=
  match s.courses.find? (fun c => c.course_id == e.course_id) with
  | none => []
  | some c =>
    (outerRows (attMatches s su e.course_id)).flatMap (fun a =>
      (outerRows (ttMatches s e.course_id)).map (fun t =>
        ⟨c.course_name, e.grade, a.map (fun ar => (ar.status, ar.date)),
         t.map (fun tr => (tr.day, tr.start_time, tr.end_time))⟩))

/-- The full result set of the report query for one student. -/
def reportRecords (s : SMS) (su : String) : List ReportRecord :=
  (s.enrollments.filter (fun e => e.student_username == su)).flatMap
    (recordsFor s su)

/-- `record[1] if record[1] else 'N/A'`: NULL and the falsy grade `0` both
render as `N/A`. -/
def renderGrade : Option Int → String
  | none => "N/A"
  | some g => if g == 0 then "N/A" else toString g

/-- The per-record block of the report text. -/
def recordBlock (r : ReportRecord) : String :=
  "Course: " ++ r.course_name ++ "\nGrade: " ++ renderGrade r.grade ++ "\n" ++
  (match r.att with
   | some (st, d) =>
     if st != "" then "Attendance: " ++ st ++ " on " ++ d ++ "\n" else ""
   | none => "") ++
  (match r.tt with
   | some (d, t1, t2) =>
     if d != "" then "Schedule: " ++ d ++ " " ++ t1 ++ "-" ++ t2 ++ "\n" else ""
   | none => "") ++
  "\n"

/-- The report header; `student[3] or 'None'` maps NULL and the empty
string to `None`. -/
def reportHeader (su : String) (st : StudentRow) : String :=
  "Report for " ++ su ++ " (ID: " ++ st.student_id ++ ")\nGrade Level: " ++
  toString st.grade_level ++ "\nAssigned Teacher: " ++
  (match st.assigned_teacher with
   | some t => if t == "" then "None" else t
   | none => "None") ++ "\n\n"

/-- `SchoolManagementSystem.export_report`: `none` models returning `False`
with no file written, `some text` models writing `text` and returning
`True`. -/
def export_report (s : SMS) (student_username : String) : Option String :=
  match s.students.find? (fun st => st.username == student_username) with
  | none => none
  | some st =>
    some (reportHeader student_username st ++
      String.join ((reportRecords s student_username).map recordBlock))

/-- Helpers to phrase the claims: the actor gate of `add_user`. -/
def adminActor (s : SMS) : Bool :=
  match s.logged_in_user with
  | some lu => lu.role == "admin"
  | none => false

/-- `not all([username, password, role, name, email])`. -/
def missingFields (un pw rl nm em : String) : Bool :=
  un == "" || pw == "" || rl == "" || nm == "" || em == ""

def dupUsername (s : SMS) (un : String) : Bool :=
  s.users.any (fun u => u.username == un)

def dupEmail (s : SMS) (em : String) : Bool :=
  s.users.any (fun u => u.email == em)

def studentUserOk (s : SMS) (su : String) : Bool :=
  s.users.any (fun u => u.username == su && u.role == "student")

def courseExists (s : SMS) (cid : Nat) : Bool :=
  s.courses.any (fun c => c.course_id == cid)

def isValueError : Except SMSError SMS → Bool
  | .error (.valueError _) => true
  | _ => false

def isPermError : Except SMSError SMS → Bool
  | .error (.permissionError _) => true
  | _ => false

/-- Every `students` row is backed by a `users` row with role `student`. -/
def studentRolesOk (s : SMS) : Bool :=
  s.students.all (fun st => s.users.any (fun u =>
    u.username == st.username && u.role == "student"))

/-- Every enrollment's `student_username` names an existing user. -/
def enrollmentUsersOk (s : SMS) : Bool :=
  s.enrollments.all (fun e => s.users.any (fun u =>
    u.username == e.student_username))

/-- The enrollment rows the auto-enrollment loop inserts: one per course of
the assigned teacher, with consecutive AUTOINCREMENT ids, the new student's
username and a NULL grade. -/
def enrollRowsFrom (un : String) (nid : Nat) : List CourseRow → List EnrollmentRow
  | [] => []
  | c :: rest => ⟨nid, un, c.course_id, none⟩ :: enrollRowsFrom un (nid + 1) rest

/-- The course rows the teacher branch inserts: one per surviving entry,
with consecutive ids, the new teacher as owner and 3 credits. -/
def courseRowsFrom (un : String) (nid : Nat) : List String → List CourseRow
  | [] => []
  | nm :: rest => ⟨nid, nm, some un, 3⟩ :: courseRowsFrom un (nid + 1) rest

/-- The comma-separated course list after splitting, stripping and dropping
empty entries, exactly as the loop in `add_user` consumes it. -/
def trimmedEntries (cs : String) : List String :=
  ((pySplitComma cs).map pyStrip).filter (fun x => x != "")

/-- The states the running program can actually be in: the freshly
initialised database followed by any sequence of completed operations
(`export_report` never mutates the state, and a raising operation commits
nothing). -/
inductive Reach (hash : String → String) : SMS → Prop where
  | init : Reach hash (initState hash)
  | login_step {s : SMS} (u p : String) (hr : Reach hash s) :
      Reach hash (login hash s u p).1
  | add_user_step {s s2 : SMS} (un pw rl nm em : String) (ph : Option String)
      (gl : Option Int) (at2 cs : Option String) (hr : Reach hash s)
      (h : add_user hash s un pw rl nm em ph gl at2 cs = .ok s2) :
      Reach hash s2
  | enroll_step {s s2 : SMS} (su : String) (cid : Nat) (hr : Reach hash s)
      (h : enroll_student s su cid = .ok s2) : Reach hash s2
  | grade_step {s s2 : SMS} (su : String) (cid : Nat) (g : Int)
      (hr : Reach hash s) (h : assign_grade s su cid g = .ok s2) :
      Reach hash s2
  | attendance_step {s s2 : SMS} (today su : String) (cid : Nat) (st : String)
      (hr : Reach hash s) (h : mark_attendance s today su cid st = .ok s2) :
      Reach hash s2
  | timetable_step {s s2 : SMS} (cid : Nat) (day t1 t2 : String)
      (hr : Reach hash s) (h : add_timetable s cid day t1 t2 = .ok s2) :
      Reach hash s2

/-- A concrete stand-in for SHA-256 used to instantiate the theorems on
closed inputs; the theorems themselves quantify over the hash. -/
def hashW : String → String := fun x => "#" ++ x

/-- Pull the committed state out of a successful call. -/
def okState (r : Except SMSError SMS) : SMS :=
  match r with
  | .ok s => s
  | .error _ => initState hashW

/-- The fresh database with the seeded admin logged in. -/
def sAdmin : SMS := (login hashW (initState hashW) "admin" "admin123").1

def resT : Except SMSError SMS :=
  add_user hashW sAdmin "t1" "pw" "teacher" "T One" "t1@x.y"
    none none none (some "Algebra, Bio")

/-- After the admin created teacher `t1` with courses `"Algebra, Bio"`. -/
def sT : SMS := okState resT

def resS : Except SMSError SMS :=
  add_user hashW sT "stu3" "pw" "student" "S Three" "s3@x.y"
    none (some 9) (some "t1") none

/-- After the admin additionally created student `stu3`, grade level 9,
assigned to teacher `t1`. -/
def sS : SMS := okState resS

def resT2 : Except SMSError SMS :=
  add_user hashW sAdmin "t2" "pw" "teacher" "T Two" "t2@x.y"
    none none none (some "Math, Science")

/-- After the admin created teacher `t2` with courses `"Math, Science"`. -/
def sT2 : SMS := okState resT2

def resC2 : Except SMSError SMS :=
  add_user hashW sAdmin "stu1" "pw" "student" "Stu" "s1@x.y"
    none none none none

/-- After the admin created a user with role `student` but no grade level:
the falsy `grade_level` skips the whole student branch. -/
def sC2 : SMS := okState resC2

/-- A database with one student user, one course and one enrollment already
linking them, and nobody logged in. -/
def sDup : SMS :=
  { users := [⟨"s1", "#pw", "student", "S", "s1@x.y", none⟩],
    students := [], courses := [⟨1, "Alg", none, 3⟩],
    enrollments := [⟨1, "s1", 1, none⟩], attendance := [], timetable := [],
    logged_in_user := none, next_course_id := 2, next_enrollment_id := 2,
    next_attendance_id := 1, next_timetable_id := 1 }

/-- A database with a teacher logged in who owns no course at all. -/
def sTeach : SMS :=
  { users := [⟨"t1", "#pw", "teacher", "T", "t1@x.y", none⟩],
    students := [], courses := [], enrollments := [], attendance := [],
    timetable := [], logged_in_user := some ⟨"t1", "teacher", "T"⟩,
    next_course_id := 1, next_enrollment_id := 1, next_attendance_id := 1,
    next_timetable_id := 1 }

/-- A database where student `s1` has exactly two enrollments, and the
course of the first one carries two attendance rows for `s1`. -/
def sC6 : SMS :=
  { users := [⟨"t1", "#pw", "teacher", "T", "t1@x.y", none⟩,
              ⟨"s1", "#pw", "student", "S", "s1@x.y", none⟩],
    students := [⟨"STU00s109", "s1", 9, some "t1"⟩],
    courses := [⟨1, "Algebra", some "t1", 3⟩, ⟨2, "Bio", some "t1", 3⟩],
    enrollments := [⟨1, "s1", 1, none⟩, ⟨2, "s1", 2, none⟩],
    attendance := [⟨1, "s1", 1, "2026-10-01", "Present"⟩,
                   ⟨2, "s1", 1, "2026-10-02", "Absent"⟩],
    timetable := [], logged_in_user := none, next_course_id := 3,
    next_enrollment_id := 3, next_attendance_id := 3, next_timetable_id := 1 }

def resC3x : Except SMSError SMS :=
  add_user hashW sT "stu9" "pw" "student" "S Nine" "s9@x.y"
    none none (some "t1") none

/-- After the admin created a user with role `student`, a null grade level
and non-null assigned teacher `t1` (who owns two courses): the falsy grade
level skips the whole student branch, auto-enrollment included. -/
def sC3x : SMS := okState resC3x

theorem insertUser_ok {s : SMS} {row : UserRow} {s1 : SMS}
    (h : insertUser s row = .ok s1) :
    s1 = { s with users := s.users ++ [row] } ∧
    s.users.any (fun u => u.username == row.username) = false := by
  unfold insertUser at h
  split_ifs at h with h1 h2 h3
  all_goals cases h
  exact ⟨rfl, by simpa using h1⟩

theorem insertStudent_ok {s : SMS} {row : StudentRow} {s2 : SMS}
    (h : insertStudent s row = .ok s2) :
    s2 = { s with students := s.students ++ [row] } := by
  unfold insertStudent at h
  split_ifs at h
  all_goals cases h
  rfl

theorem enrollFold_spec (un : String) (l : List CourseRow) : ∀ s0 : SMS,
    ((l.foldl (fun acc c => insertEnrollment acc un c.course_id) s0).users
      = s0.users) ∧
    ((l.foldl (fun acc c => insertEnrollment acc un c.course_id) s0).students
      = s0.students) ∧
    ((l.foldl (fun acc c => insertEnrollment acc un c.course_id) s0).courses
      = s0.courses) ∧
    ((l.foldl (fun acc c => insertEnrollment acc un c.course_id) s0).enrollments
      = s0.enrollments ++ enrollRowsFrom un s0.next_enrollment_id l) := by
  induction l with
  | nil => intro s0; simp [enrollRowsFrom]
  | cons c rest ih =>
    intro s0
    obtain ⟨h1, h2, h3, h4⟩ := ih (insertEnrollment s0 un c.course_id)
    refine ⟨?_, ?_, ?_, ?_⟩
    · simp only [List.foldl_cons]; rw [h1]; rfl
    · simp only [List.foldl_cons]; rw [h2]; rfl
    · simp only [List.foldl_cons]; rw [h3]; rfl
    · simp only [List.foldl_cons]; rw [h4]
      simp [insertEnrollment, enrollRowsFrom]

theorem courseFold_spec (un : String) (l : List String) : ∀ s0 : SMS,
    ((l.foldl (fun acc nm =>
        if pyStrip nm == "" then acc else insertCourse acc (pyStrip nm) un) s0).users
      = s0.users) ∧
    ((l.foldl (fun acc nm =>
        if pyStrip nm == "" then acc else insertCourse acc (pyStrip nm) un) s0).students
      = s0.students) ∧
    ((l.foldl (fun acc nm =>
        if pyStrip nm == "" then acc else insertCourse acc (pyStrip nm) un) s0).enrollments
      = s0.enrollments) ∧
    ((l.foldl (fun acc nm =>
        if pyStrip nm == "" then acc else insertCourse acc (pyStrip nm) un) s0).courses
      = s0.courses ++ courseRowsFrom un s0.next_course_id
          ((l.map pyStrip).filter (fun x => x != ""))) := by
  induction l with
  | nil => intro s0; simp [courseRowsFrom]
  | cons nm rest ih =>
    intro s0
    by_cases hnm : pyStrip nm = ""
    · have hb : (pyStrip nm == "") = true := by simp [hnm]
      obtain ⟨h1, h2, h3, h4⟩ := ih s0
      refine ⟨?_, ?_, ?_, ?_⟩
      · simp only [List.foldl_cons, if_pos hb]; rw [h1]
      · simp only [List.foldl_cons, if_pos hb]; rw [h2]
      · simp only [List.foldl_cons, if_pos hb]; rw [h3]
      · simp only [List.foldl_cons, if_pos hb]; rw [h4]
        simp [hnm]
    · have hb : ¬((pyStrip nm == "") = true) := by simp [hnm]
      obtain ⟨h1, h2, h3, h4⟩ := ih (insertCourse s0 (pyStrip nm) un)
      refine ⟨?_, ?_, ?_, ?_⟩
      · simp only [List.foldl_cons, if_neg hb]; rw [h1]; rfl
      · simp only [List.foldl_cons, if_neg hb]; rw [h2]; rfl
      · simp only [List.foldl_cons, if_neg hb]; rw [h3]; rfl
      · simp only [List.foldl_cons, if_neg hb]; rw [h4]
        simp [insertCourse, courseRowsFrom, hnm]

theorem enrollRowsFrom_fields (un : String) (l : List CourseRow) :
    ∀ (nid : Nat), ∀ e ∈ enrollRowsFrom un nid l,
      e.student_username = un ∧ e.grade = none := by
  induction l with
  | nil => intro nid e he; simp [enrollRowsFrom] at he
  | cons c rest ih =>
    intro nid e he
    simp only [enrollRowsFrom, List.mem_cons] at he
    rcases he with rfl | he
    · exact ⟨rfl, rfl⟩
    · exact ih (nid + 1) e he

theorem enrollRowsFrom_map (un : String) (l : List CourseRow) : ∀ nid : Nat,
    (enrollRowsFrom un nid l).map (fun e => (e.course_id, e.grade))
      = l.map (fun c => (c.course_id, (none : Option Int))) := by
  induction l with
  | nil => intro nid; simp [enrollRowsFrom]
  | cons c rest ih => intro nid; simp [enrollRowsFrom, ih (nid + 1)]

theorem enrollRowsFrom_filter (un : String) (l : List CourseRow) : ∀ nid : Nat,
    (enrollRowsFrom un nid l).filter (fun e => e.student_username == un)
      = enrollRowsFrom un nid l := by
  induction l with
  | nil => intro nid; simp [enrollRowsFrom]
  | cons c rest ih => intro nid; simp [enrollRowsFrom, ih (nid + 1)]

theorem courseRowsFrom_map (un : String) (l : List String) : ∀ nid : Nat,
    (courseRowsFrom un nid l).map (fun c => c.course_name) = l := by
  induction l with
  | nil => intro nid; simp [courseRowsFrom]
  | cons nm rest ih => intro nid; simp [courseRowsFrom, ih (nid + 1)]

theorem courseRowsFrom_fields (un : String) (l : List String) : ∀ nid : Nat,
    ∀ c ∈ courseRowsFrom un nid l,
      c.teacher_username = some un ∧ c.credits = 3 := by
  induction l with
  | nil => intro nid c hc; simp [courseRowsFrom] at hc
  | cons nm rest ih =>
    intro nid c hc
    simp only [courseRowsFrom, List.mem_cons] at hc
    rcases hc with rfl | hc
    · exact ⟨rfl, rfl⟩
    · exact ih (nid + 1) c hc

theorem studentExtras_spec (un : String) (at2 : Option String) (s2 : SMS) :
    ((studentExtras un at2 s2).users = s2.users) ∧
    ((studentExtras un at2 s2).students = s2.students) ∧
    ((studentExtras un at2 s2).courses = s2.courses) ∧
    (∃ newE, (studentExtras un at2 s2).enrollments = s2.enrollments ++ newE ∧
      ∀ e ∈ newE, e.student_username = un) := by
  cases at2 with
  | none => exact ⟨rfl, rfl, rfl, [], by simp [studentExtras], by simp⟩
  | some t =>
    by_cases ht : t = ""
    · subst ht
      exact ⟨rfl, rfl, rfl, [], by simp [studentExtras], by simp⟩
    · obtain ⟨h1, h2, h3, h4⟩ := enrollFold_spec un (coursesOf s2 t) s2
      have ht2 : (t != "") = true := by simpa using ht
      refine ⟨?_, ?_, ?_,
        enrollRowsFrom un s2.next_enrollment_id (coursesOf s2 t), ?_, ?_⟩
      · simp only [studentExtras, if_pos ht2]; exact h1
      · simp only [studentExtras, if_pos ht2]; exact h2
      · simp only [studentExtras, if_pos ht2]; exact h3
      · simp only [studentExtras, if_pos ht2]; exact h4
      · exact fun e he => (enrollRowsFrom_fields un (coursesOf s2 t)
          s2.next_enrollment_id e he).1

theorem studentExtras_enr (un t : String) (s2 : SMS) (ht : t ≠ "") :
    (studentExtras un (some t) s2).enrollments
      = s2.enrollments ++ enrollRowsFrom un s2.next_enrollment_id
          (coursesOf s2 t) := by
  have ht2 : (t != "") = true := by simpa using ht
  simp only [studentExtras, if_pos ht2]
  exact (enrollFold_spec un (coursesOf s2 t) s2).2.2.2

theorem login_preserves (hash : String → String) (s : SMS)
    (username password : String) :
    ((login hash s username password).1.users = s.users) ∧
    ((login hash s username password).1.students = s.students) ∧
    ((login hash s username password).1.enrollments = s.enrollments) := by
  unfold login
  cases hf : s.users.find? (fun u => u.username == username &&
      u.password == hash password) <;> exact ⟨rfl, rfl, rfl⟩

theorem enroll_ok_shape {s : SMS} {su : String} {cid : Nat} {s2 : SMS}
    (h : enroll_student s su cid = .ok s2) :
    s2 = insertEnrollment s su cid ∧ studentUserOk s su = true ∧
    courseExists s cid = true := by
  unfold enroll_student at h
  split_ifs at h with h1 h2
  all_goals cases h
  refine ⟨rfl, ?_, ?_⟩
  · simpa [studentUserOk] using h1
  · simpa [courseExists] using h2

theorem assign_ok_shape {s : SMS} {su : String} {cid : Nat} {g : Int}
    {s2 : SMS} (h : assign_grade s su cid g = .ok s2) :
    s2.users = s.users ∧ s2.students = s.students ∧
    s2.enrollments.map (fun e => e.student_username)
      = s.enrollments.map (fun e => e.student_username) := by
  unfold assign_grade at h
  split at h
  · cases h
  · split_ifs at h
    all_goals cases h
    refine ⟨rfl, rfl, ?_⟩
    show (s.enrollments.map _).map _ = _
    rw [List.map_map]
    apply List.map_congr_left
    intro e _
    by_cases hm : (e.student_username == su && e.course_id == cid) = true <;>
      simp [Function.comp, hm]

theorem mark_ok_shape {s : SMS} {today su : String} {cid : Nat} {st : String}
    {s2 : SMS} (h : mark_attendance s today su cid st = .ok s2) :
    s2.users = s.users ∧ s2.students = s.students ∧
    s2.enrollments = s.enrollments := by
  unfold mark_attendance at h
  split at h
  · cases h
  · split_ifs at h
    all_goals cases h
    exact ⟨rfl, rfl, rfl⟩

theorem timetable_ok_shape {s : SMS} {cid : Nat} {day t1 t2 : String}
    {s2 : SMS} (h : add_timetable s cid day t1 t2 = .ok s2) :
    s2.users = s.users ∧ s2.students = s.students ∧
    s2.enrollments = s.enrollments := by
  unfold add_timetable at h
  split at h
  · cases h
  · split_ifs at h
    all_goals cases h
    exact ⟨rfl, rfl, rfl⟩

theorem add_user_ok_writes {hash : String → String} {s : SMS}
    {un pw rl nm em : String} {ph : Option String} {gl : Option Int}
    {at2 cs : Option String} {s2 : SMS}
    (h : add_user hash s un pw rl nm em ph gl at2 cs = .ok s2) :
    add_user_writes hash s un pw rl nm em ph gl at2 cs = .ok s2 := by
  unfold add_user at h
  split at h
  · cases h
  · split_ifs at h
    revert h
    cases hw : add_user_writes hash s un pw rl nm em ph gl at2 cs with
    | error e => cases e <;> intro h <;> cases h
    | ok v => intro h; exact h

theorem writes_shape {hash : String → String} {s : SMS}
    {un pw rl nm em : String} {ph : Option String} {gl : Option Int}
    {at2 cs : Option String} {s2 : SMS}
    (h : add_user_writes hash s un pw rl nm em ph gl at2 cs = .ok s2) :
    s2.users = s.users ++ [⟨un, hash pw, rl, nm, em, ph⟩] ∧
    dupUsername s un = false ∧
    ((rl == "student" && gradeTruthy gl) = true →
      ∃ r : StudentRow, r.username = un ∧ s2.students = s.students ++ [r]) ∧
    ((rl == "student" && gradeTruthy gl) = false → s2.students = s.students) ∧
    (∃ newE, s2.enrollments = s.enrollments ++ newE ∧
      ∀ e ∈ newE, e.student_username = un) := by
  unfold add_user_writes at h
  split at h
  · cases h
  · rename_i s1 hi
    obtain ⟨hs1, hfresh⟩ := insertUser_ok hi
    subst hs1
    by_cases hc : (rl == "student" && gradeTruthy gl) = true
    · rw [if_pos hc] at h
      split at h
      · cases h
      · rename_i s3 hst
        have hs3 := insertStudent_ok hst
        subst hs3
        cases h
        obtain ⟨e1, e2, e3, newE, e4, e5⟩ := studentExtras_spec un at2 _
        refine ⟨?_, hfresh, ?_, ?_, newE, ?_, e5⟩
        · rw [e1]
        · intro _
          exact ⟨⟨studentIdOf un (gl.getD 0), un, gl.getD 0, at2⟩, rfl, by rw [e2]⟩
        · intro hcf; rw [hc] at hcf; cases hcf
        · rw [e4]
    · rw [if_neg hc] at h
      by_cases hden : (rl == "teacher" && strTruthy cs) = true
      · rw [if_pos hden] at h
        cases h
        obtain ⟨f1, f2, f3, f4⟩ :=
          courseFold_spec un (pySplitComma (cs.getD ""))
            { s with users := s.users ++ [⟨un, hash pw, rl, nm, em, ph⟩] }
        refine ⟨?_, hfresh, ?_, ?_, [], ?_, ?_⟩
        · exact f1
        · intro hct; exact absurd hct hc
        · intro _; exact f2
        · rw [List.append_nil]; exact f3
        · simp
      · rw [if_neg hden] at h
        cases h
        exact ⟨rfl, hfresh, fun hct => absurd hct hc, fun _ => rfl, [],
          by simp, by simp⟩

theorem writes_student_enr {hash : String → String} {s : SMS}
    {un pw nm em : String} {ph : Option String} {g : Int} {t : String}
    {cs : Option String} {s2 : SMS}
    (h : add_user_writes hash s un pw "student" nm em ph (some g) (some t) cs
      = .ok s2) (hg : g ≠ 0) (ht : t ≠ "") :
    s2.enrollments = s.enrollments ++
      enrollRowsFrom un s.next_enrollment_id (coursesOf s t) := by
  unfold add_user_writes at h
  split at h
  · cases h
  · rename_i s1 hi
    obtain ⟨hs1, _⟩ := insertUser_ok hi
    subst hs1
    have hc : (("student" : String) == "student" && gradeTruthy (some g))
        = true := by simp [gradeTruthy, hg]
    rw [if_pos hc] at h
    split at h
    · cases h
    · rename_i s3 hst
      have hs3 := insertStudent_ok hst
      subst hs3
      cases h
      exact studentExtras_enr un t _ ht

theorem writes_teacher_courses {hash : String → String} {s : SMS}
    {un pw nm em : String} {ph : Option String} {gl : Option Int}
    {at2 : Option String} {cs : String} {s2 : SMS}
    (h : add_user_writes hash s un pw "teacher" nm em ph gl at2 (some cs)
      = .ok s2) :
    s2.courses = s.courses ++
      courseRowsFrom un s.next_course_id (trimmedEntries cs) := by
  unfold add_user_writes at h
  split at h
  · cases h
  · rename_i s1 hi
    obtain ⟨hs1, _⟩ := insertUser_ok hi
    subst hs1
    have hc : ¬((("teacher" : String) == "student" && gradeTruthy gl) = true) := by
      simp
    rw [if_neg hc] at h
    by_cases hcs : cs = ""
    · subst hcs
      have hden : ¬((("teacher" : String) == "teacher" && strTruthy (some ""))
          = true) := by simp [strTruthy]
      rw [if_neg hden] at h
      cases h
      have hte : trimmedEntries "" = [] := by decide
      simp [hte, courseRowsFrom]
    · have hden : (("teacher" : String) == "teacher" && strTruthy (some cs))
          = true := by simp [strTruthy, hcs]
      rw [if_pos hden] at h
      cases h
      exact (courseFold_spec un (pySplitComma cs)
        { s with users := s.users ++ [⟨un, hash pw, "teacher", nm, em, ph⟩] }).2.2.2

theorem reach_tables_ok {hash : String → String} {s : SMS}
    (h : Reach hash s) :
    studentRolesOk s = true ∧ enrollmentUsersOk s = true := by
  induction h with
  | init => exact ⟨rfl, rfl⟩
  | login_step u p hr ih =>
    rename_i s
    obtain ⟨h1, h2, h3⟩ := login_preserves hash s u p
    constructor
    · unfold studentRolesOk; rw [h1, h2]; exact ih.1
    · unfold enrollmentUsersOk; rw [h1, h3]; exact ih.2
  | add_user_step un pw rl nm em ph gl at2 cs hr hok ih =>
    rename_i s s2
    have hw := add_user_ok_writes hok
    obtain ⟨husers, hfresh, hstT, hstF, newE, henr, hnewE⟩ := writes_shape hw
    constructor
    · unfold studentRolesOk
      rw [List.all_eq_true]
      intro st hstmem
      by_cases hc : (rl == "student" && gradeTruthy gl) = true
      · obtain ⟨r, hrun, hstudents⟩ := hstT hc
        rw [hstudents] at hstmem
        rw [husers, List.any_append]
        rcases List.mem_append.mp hstmem with hold | hnew
        · have hpred := List.all_eq_true.mp ih.1 st hold
          simp only [hpred, Bool.true_or]
        · have hc2 := hc
          rw [Bool.and_eq_true] at hc2
          have hrole : (rl == "student") = true := hc2.1
          simp only [List.mem_singleton] at hnew
          subst hnew
          simp [hrun, eq_of_beq hrole]
      · have hstudents := hstF (by simpa using hc)
        rw [hstudents] at hstmem
        have hpred := List.all_eq_true.mp ih.1 st hstmem
        rw [husers, List.any_append]
        simp only [hpred, Bool.true_or]
    · unfold enrollmentUsersOk
      rw [List.all_eq_true]
      intro e hemem
      rw [henr] at hemem
      rw [husers, List.any_append]
      rcases List.mem_append.mp hemem with hold | hnew
      · have hpred := List.all_eq_true.mp ih.2 e hold
        simp only [hpred, Bool.true_or]
      · have := hnewE e hnew
        simp [this]
  | enroll_step su cid hr hok ih =>
    rename_i s s2
    obtain ⟨hs2, hstu, _⟩ := enroll_ok_shape hok
    subst hs2
    constructor
    · exact ih.1
    · unfold enrollmentUsersOk
      rw [List.all_eq_true]
      intro e hemem
      have hemem2 : e ∈ s.enrollments ++ [⟨s.next_enrollment_id, su, cid, none⟩] :=
        hemem
      rcases List.mem_append.mp hemem2 with hold | hnew
      · exact List.all_eq_true.mp ih.2 e hold
      · simp only [List.mem_singleton] at hnew
        subst hnew
        obtain ⟨u, hu, hpu⟩ := List.any_eq_true.mp hstu
        rw [Bool.and_eq_true] at hpu
        exact List.any_eq_true.mpr ⟨u, hu, hpu.1⟩
  | grade_step su cid g hr hok ih =>
    rename_i s s2
    obtain ⟨hu, hs, hmap⟩ := assign_ok_shape hok
    have hform : ∀ (l : List EnrollmentRow),
        (l.all (fun e => s.users.any (fun u => u.username == e.student_username)))
          = ((l.map (fun e => e.student_username)).all
              (fun x => s.users.any (fun u => u.username == x))) := by
      intro l
      induction l with
      | nil => rfl
      | cons a t iht => simp [iht]
    constructor
    · unfold studentRolesOk; rw [hu, hs]; exact ih.1
    · unfold enrollmentUsersOk
      rw [hu, hform, hmap, ← hform]
      exact ih.2
  | attendance_step today su cid st hr hok ih =>
    rename_i s s2
    obtain ⟨hu, hs, he⟩ := mark_ok_shape hok
    constructor
    · unfold studentRolesOk; rw [hu, hs]; exact ih.1
    · unfold enrollmentUsersOk; rw [hu, he]; exact ih.2
  | timetable_step cid day t1 t2 hr hok ih =>
    rename_i s s2
    obtain ⟨hu, hs, he⟩ := timetable_ok_shape hok
    constructor
    · unfold studentRolesOk; rw [hu, hs]; exact ih.1
    · unfold enrollmentUsersOk; rw [hu, he]; exact ih.2

theorem assign_map_no_match (su : String) (cid : Nat) (g : Int) :
    ∀ l : List EnrollmentRow,
      l.any (fun e => e.student_username == su && e.course_id == cid) = false →
      l.map (fun e => if e.student_username == su && e.course_id == cid
        then { e with grade := some g } else e) = l := by
  intro l
  induction l with
  | nil => intro _; rfl
  | cons a t ih =>
    intro h
    rw [List.any_cons, Bool.or_eq_false_iff] at h
    have hna : ¬((a.student_username == su && a.course_id == cid) = true) := by
      rw [h.1]; exact Bool.false_ne_true
    rw [List.map_cons, if_neg hna, ih h.2]

/-- C1: `login` returns `True` exactly when some `users` row carries the
supplied username verbatim and the hash of the supplied password; because
row lookup is exact string equality, a username differing in case or in
surrounding whitespace selects no row and cannot authenticate. -/
theorem login_succeeds_iff (hash : String → String) (s : SMS)
    (username password : String) :
    (login hash s username password).2 = true ↔
      ∃ r ∈ s.users, r.username = username ∧ r.password = hash password := by
  unfold login
  cases hf : s.users.find? (fun u => u.username == username &&
      u.password == hash password) with
  | none =>
    constructor
    · intro hcontra; exact Bool.noConfusion hcontra
    · rintro ⟨r, hr, h1, h2⟩
      have hnone := List.find?_eq_none.mp hf r hr
      simp [h1, h2] at hnone
  | some u =>
    constructor
    · intro _
      have hp := List.find?_some hf
      rw [Bool.and_eq_true] at hp
      exact ⟨u, List.mem_of_find?_eq_some hf, eq_of_beq hp.1, eq_of_beq hp.2⟩
    · intro _; rfl

/-- C5: with any teacher logged in, `assign_grade` succeeds with the state
unchanged when no enrollment row matches the given student and course (the
UPDATE touches zero rows and still returns True), succeeds for every
in-range grade without any check that the teacher teaches the course, and
`mark_attendance` likewise succeeds for every valid status, inserting the
dated row without any ownership check. -/
theorem teacher_mutations_succeed (s : SMS) (lu : LoggedUser)
    (hl : s.logged_in_user = some lu) (hr : lu.role = "teacher")
    (su : String) (cid : Nat) (g : Int) (today status : String) :
    ((s.enrollments.any (fun e => e.student_username == su &&
        e.course_id == cid)) = false →
      assign_grade s su cid g = .ok s) ∧
    (0 ≤ g → g ≤ 100 → (assign_grade s su cid g).isOk = true) ∧
    ((status == "Present" || status == "Absent" || status == "Late") = true →
      mark_attendance s today su cid status = .ok { s with
        attendance := s.attendance ++
          [⟨s.next_attendance_id, su, cid, today, status⟩],
        next_attendance_id := s.next_attendance_id + 1 }) := by
  have hA : ¬((lu.role != "teacher") = true) := by simp [hr]
  refine ⟨?_, ?_, ?_⟩
  · intro hno
    unfold assign_grade
    rw [hl]
    dsimp only
    rw [if_neg hA]
    rw [if_neg (show ¬(((s.enrollments.any fun e => e.student_username == su &&
        e.course_id == cid) && !(decide (0 ≤ g) && decide (g ≤ 100))) = true) by
      rw [hno]; simp)]
    rw [assign_map_no_match su cid g s.enrollments hno]
    rw [← hl]
  · intro hg0 hg100
    unfold assign_grade
    rw [hl]
    dsimp only
    rw [if_neg hA]
    rw [if_neg (show ¬(((s.enrollments.any fun e => e.student_username == su &&
        e.course_id == cid) && !(decide (0 ≤ g) && decide (g ≤ 100))) = true) by
      simp [hg0, hg100])]
    rfl
  · intro hst
    unfold mark_attendance
    rw [hl]
    dsimp only
    rw [if_neg (show ¬((lu.role != "teacher") = true) from hA)]
    rw [if_neg (show ¬((!(status == "Present" || status == "Absent" ||
        status == "Late")) = true) by simp [hst])]

/-- C8: `enroll_student` raises `ValueError` exactly when the username is
not a `users` row with role `student` or the course id does not exist;
otherwise it appends exactly one enrollment row with a NULL grade and
returns True — there is no duplicate check, so this holds even when an
identical enrollment already exists. -/
theorem enroll_student_spec (s : SMS) (su : String) (cid : Nat) :
    (studentUserOk s su = false →
      enroll_student s su cid = .error (.valueError "Invalid student username")) ∧
    (studentUserOk s su = true → courseExists s cid = false →
      enroll_student s su cid = .error (.valueError "Invalid course ID")) ∧
    (studentUserOk s su = true → courseExists s cid = true →
      enroll_student s su cid = .ok { s with
        enrollments := s.enrollments ++ [⟨s.next_enrollment_id, su, cid, none⟩],
        next_enrollment_id := s.next_enrollment_id + 1 }) := by
  refine ⟨?_, ?_, ?_⟩
  · intro h1
    unfold studentUserOk at h1
    simp [enroll_student, h1]
  · intro h1 h2
    unfold studentUserOk at h1
    unfold courseExists at h2
    simp [enroll_student, h1, h2]
  · intro h1 h2
    unfold studentUserOk at h1
    unfold courseExists at h2
    simp [enroll_student, h1, h2]
    rfl

/-- C9: `enroll_student` consults `logged_in_user` nowhere: it can never
raise `PermissionError`, and with a valid student username and an existing
course it succeeds and inserts the row whatever the session state is —
including no logged-in user at all. -/
theorem enroll_student_no_gate (s : SMS) (su : String) (cid : Nat) :
    isPermError (enroll_student s su cid) = false ∧
    (studentUserOk s su = true → courseExists s cid = true →
      enroll_student s su cid = .ok (insertEnrollment s su cid)) := by
  constructor
  · unfold enroll_student isPermError
    split_ifs <;> rfl
  · intro h1 h2
    unfold studentUserOk at h1
    unfold courseExists at h2
    simp [enroll_student, h1, h2]

/-- C10: a failed `login` does not touch the global `logged_in_user`: when
no row matches the supplied credentials, the call returns False and the
previously authenticated identity (or its absence) stays in place. -/
theorem failed_login_keeps_session (hash : String → String) (s : SMS)
    (username password : String)
    (h : ∀ r ∈ s.users, ¬(r.username = username ∧ r.password = hash password)) :
    (login hash s username password).1.logged_in_user = s.logged_in_user ∧
    (login hash s username password).2 = false := by
  have hf : s.users.find? (fun u => u.username == username &&
      u.password == hash password) = none := by
    rw [List.find?_eq_none]
    intro r hr
    simpa using h r hr
  unfold login
  rw [hf]
  exact ⟨rfl, rfl⟩

/-- C2 (amended): in every reachable state a Student row exists only if its
User row has role `student`, and a successful `add_user` with role
`student` leaves a matching Student row provided the supplied grade level
is truthy — with a null (or zero) grade level the code inserts the
student-role User row and silently skips the Student row. -/
theorem student_rows_match_roles :
    (∀ (hash : String → String) (s : SMS), Reach hash s →
      studentRolesOk s = true) ∧
    (∀ (hash : String → String) (s s2 : SMS) (un pw nm em : String)
      (ph : Option String) (g : Int) (at2 cs : Option String),
      add_user hash s un pw "student" nm em ph (some g) at2 cs = .ok s2 →
      g ≠ 0 →
      s2.students.any (fun st => st.username == un) = true) := by
  constructor
  · intro hash s hr
    exact (reach_tables_ok hr).1
  · intro hash s s2 un pw nm em ph g at2 cs hok hg
    have hw := add_user_ok_writes hok
    obtain ⟨_, _, hstT, _, _⟩ := writes_shape hw
    have hc : (("student" : String) == "student" && gradeTruthy (some g))
        = true := by simp [gradeTruthy, hg]
    obtain ⟨r, hrun, hstudents⟩ := hstT hc
    rw [hstudents, List.any_append]
    simp [hrun]

theorem login_courses (hash : String → String) (s : SMS)
    (username password : String) :
    (login hash s username password).1.courses = s.courses := by
  unfold login
  cases hf : s.users.find? (fun u => u.username == username &&
      u.password == hash password) <;> rfl

theorem assign_ok_courses {s : SMS} {su : String} {cid : Nat} {g : Int}
    {s2 : SMS} (h : assign_grade s su cid g = .ok s2) :
    s2.courses = s.courses := by
  unfold assign_grade at h
  split at h
  · cases h
  · split_ifs at h
    all_goals cases h
    rfl

theorem mark_ok_courses {s : SMS} {today su : String} {cid : Nat}
    {st : String} {s2 : SMS} (h : mark_attendance s today su cid st = .ok s2) :
    s2.courses = s.courses := by
  unfold mark_attendance at h
  split at h
  · cases h
  · split_ifs at h
    all_goals cases h
    rfl

theorem timetable_ok_courses {s : SMS} {cid : Nat} {day t1 t2 : String}
    {s2 : SMS} (h : add_timetable s cid day t1 t2 = .ok s2) :
    s2.courses = s.courses := by
  unfold add_timetable at h
  split at h
  · cases h
  · split_ifs at h
    all_goals cases h
    rfl

theorem add_user_ok_username {hash : String → String} {s : SMS}
    {un pw rl nm em : String} {ph : Option String} {gl : Option Int}
    {at2 cs : Option String} {s2 : SMS}
    (h : add_user hash s un pw rl nm em ph gl at2 cs = .ok s2) :
    (un == "") = false := by
  unfold add_user at h
  split at h
  · cases h
  · split_ifs at h with h1 h2 h3 h4
    by_cases hun : (un == "") = true
    · exact absurd (by rw [hun]; rfl) h2
    · simpa using hun

theorem writes_courses {hash : String → String} {s : SMS}
    {un pw rl nm em : String} {ph : Option String} {gl : Option Int}
    {at2 cs : Option String} {s2 : SMS}
    (h : add_user_writes hash s un pw rl nm em ph gl at2 cs = .ok s2) :
    s2.courses = s.courses ∨
    s2.courses = s.courses ++
      courseRowsFrom un s.next_course_id (trimmedEntries (cs.getD "")) := by
  unfold add_user_writes at h
  split at h
  · cases h
  · rename_i s1 hi
    obtain ⟨hs1, _⟩ := insertUser_ok hi
    subst hs1
    by_cases hc : (rl == "student" && gradeTruthy gl) = true
    · rw [if_pos hc] at h
      split at h
      · cases h
      · rename_i s3 hst
        have hs3 := insertStudent_ok hst
        subst hs3
        cases h
        exact .inl (studentExtras_spec un at2 _).2.2.1
    · rw [if_neg hc] at h
      by_cases hden : (rl == "teacher" && strTruthy cs) = true
      · rw [if_pos hden] at h
        cases h
        exact .inr (courseFold_spec un (pySplitComma (cs.getD "")) _).2.2.2
      · rw [if_neg hden] at h
        cases h
        exact .inl rfl

/-- In every reachable state, no course is owned by the empty-string
teacher: courses are only created by `add_user`, whose username passed the
required-fields check. -/
theorem reach_courses_ok {hash : String → String} {s : SMS}
    (h : Reach hash s) :
    s.courses.all (fun c => c.teacher_username != some "") = true := by
  induction h with
  | init => rfl
  | login_step u p hr ih =>
    rename_i s
    rw [login_courses hash s u p]
    exact ih
  | add_user_step un pw rl nm em ph gl at2 cs hr hok ih =>
    rename_i s s2
    have hw := add_user_ok_writes hok
    have hun : (un == "") = false := add_user_ok_username hok
    rcases writes_courses hw with hsame | happ
    · rw [hsame]; exact ih
    · rw [happ, List.all_append, ih, Bool.true_and, List.all_eq_true]
      intro c hc
      obtain ⟨hteq, _⟩ := courseRowsFrom_fields un
        (trimmedEntries (cs.getD "")) s.next_course_id c hc
      rw [hteq]
      simpa using hun
  | enroll_step su cid hr hok ih =>
    rename_i s s2
    obtain ⟨hs2, _, _⟩ := enroll_ok_shape hok
    subst hs2
    exact ih
  | grade_step su cid g hr hok ih =>
    rename_i s s2
    rw [assign_ok_courses hok]
    exact ih
  | attendance_step today su cid st hr hok ih =>
    rename_i s s2
    rw [mark_ok_courses hok]
    exact ih
  | timetable_step cid day t1 t2 hr hok ih =>
    rename_i s s2
    rw [timetable_ok_courses hok]
    exact ih

theorem reach_no_empty_teacher {hash : String → String} {s : SMS}
    (h : Reach hash s) : coursesOf s "" = [] := by
  have hall := reach_courses_ok h
  unfold coursesOf
  rw [List.filter_eq_nil_iff]
  intro c hc hcontra
  have h2 : (c.teacher_username == some "") = false := by
    simpa using List.all_eq_true.mp hall c hc
  rw [hcontra] at h2
  cases h2

/-- A username absent from the `users` table has no enrollments in any
reachable state. -/
theorem fresh_no_enrollments {hash : String → String} {s : SMS} {un : String}
    (hre : Reach hash s) (hfresh : dupUsername s un = false) :
    s.enrollments.filter (fun e => e.student_username == un) = [] := by
  rw [List.filter_eq_nil_iff]
  intro e he
  have hinv := (reach_tables_ok hre).2
  have hany := List.all_eq_true.mp hinv e he
  obtain ⟨u, hu, hpu⟩ := List.any_eq_true.mp hany
  intro hcontra
  have he1 : e.student_username = un := eq_of_beq hcontra
  have hu1 : u.username = e.student_username := eq_of_beq hpu
  have hdup : dupUsername s un = true := by
    unfold dupUsername
    exact List.any_eq_true.mpr ⟨u, hu, by simp [hu1, he1]⟩
  rw [hdup] at hfresh
  cases hfresh

theorem writes_student_enr_falsy {hash : String → String} {s : SMS}
    {un pw nm em : String} {ph : Option String} {gl : Option Int}
    {at2 cs : Option String} {s2 : SMS}
    (h : add_user_writes hash s un pw "student" nm em ph gl at2 cs = .ok s2)
    (hgl : gradeTruthy gl = false) :
    s2.enrollments = s.enrollments := by
  unfold add_user_writes at h
  split at h
  · cases h
  · rename_i s1 hi
    obtain ⟨hs1, _⟩ := insertUser_ok hi
    subst hs1
    rw [if_neg (show ¬((("student" : String) == "student" && gradeTruthy gl)
      = true) by simp [hgl])] at h
    rw [if_neg (show ¬((("student" : String) == "teacher" && strTruthy cs)
      = true) by simp)] at h
    cases h
    rfl

theorem writes_student_enr_emptyT {hash : String → String} {s : SMS}
    {un pw nm em : String} {ph : Option String} {g : Int}
    {cs : Option String} {s2 : SMS}
    (h : add_user_writes hash s un pw "student" nm em ph (some g) (some "") cs
      = .ok s2) (hg : g ≠ 0) :
    s2.enrollments = s.enrollments := by
  unfold add_user_writes at h
  split at h
  · cases h
  · rename_i s1 hi
    obtain ⟨hs1, _⟩ := insertUser_ok hi
    subst hs1
    rw [if_pos (show (("student" : String) == "student" &&
      gradeTruthy (some g)) = true by simp [gradeTruthy, hg])] at h
    split at h
    · cases h
    · rename_i s3 hst
      have hs3 := insertStudent_ok hst
      subst hs3
      cases h
      rfl

/-- C3 (amended): for a successful `add_user` with role `student` and a
non-null assigned teacher, when the supplied grade level is truthy the new
student ends up enrolled in every course the assigned teacher taught at
call time and in no other course, each enrollment row created with a NULL
grade; when the grade level is falsy (null or zero) the call still
succeeds but the whole student branch — auto-enrollment included — is
skipped, leaving the new student enrolled in no course at all. -/
theorem auto_enroll_exact {hash : String → String} {s s2 : SMS}
    {un pw nm em : String} {ph : Option String} {gl : Option Int} {t : String}
    {cs : Option String}
    (hre : Reach hash s)
    (hok : add_user hash s un pw "student" nm em ph gl (some t) cs = .ok s2) :
    (gradeTruthy gl = true →
      s2.enrollments = s.enrollments ++
        enrollRowsFrom un s.next_enrollment_id (coursesOf s t) ∧
      (s2.enrollments.filter (fun e => e.student_username == un)).map
          (fun e => (e.course_id, e.grade))
        = (coursesOf s t).map (fun c => (c.course_id, (none : Option Int)))) ∧
    (gradeTruthy gl = false →
      s2.enrollments = s.enrollments ∧
      s2.enrollments.filter (fun e => e.student_username == un) = []) := by
  have hw := add_user_ok_writes hok
  have hfresh : dupUsername s un = false := (writes_shape hw).2.1
  constructor
  · intro hgl
    obtain ⟨g, hgleq, hg⟩ : ∃ g, gl = some g ∧ g ≠ 0 := by
      cases gl with
      | none => simp [gradeTruthy] at hgl
      | some g =>
        refine ⟨g, rfl, ?_⟩
        simpa [gradeTruthy] using hgl
    subst hgleq
    have henr : s2.enrollments = s.enrollments ++
        enrollRowsFrom un s.next_enrollment_id (coursesOf s t) := by
      by_cases ht : t = ""
      · subst ht
        rw [reach_no_empty_teacher hre]
        simp only [enrollRowsFrom, List.append_nil]
        exact writes_student_enr_emptyT hw hg
      · exact writes_student_enr hw hg ht
    refine ⟨henr, ?_⟩
    rw [henr, List.filter_append, fresh_no_enrollments hre hfresh,
      List.nil_append,
      enrollRowsFrom_filter un (coursesOf s t) s.next_enrollment_id]
    exact enrollRowsFrom_map un (coursesOf s t) s.next_enrollment_id
  · intro hgl
    have henr := writes_student_enr_falsy hw hgl
    refine ⟨henr, ?_⟩
    rw [henr]
    exact fresh_no_enrollments hre hfresh

set_option maxRecDepth 8000 in
/-- C3 counterexample: on `sT` (teacher `t1` owns two courses and the admin
is logged in) creating student `stu9` with a null grade level but non-null
assigned teacher `t1` returns success and commits a student-role user row,
yet the new student is enrolled in none of `t1`'s two courses — refuting
the claim that every such successful call auto-enrolls the student in every
course of the assigned teacher. -/
theorem auto_enroll_exact_cex :
    resC3x = Except.ok sC3x ∧
    (coursesOf sT "t1").length = 2 ∧
    sC3x.users.any (fun u => u.username == "stu9" && u.role == "student")
      = true ∧
    sC3x.enrollments.filter (fun e => e.student_username == "stu9") = [] := by
  refine ⟨?_, ?_, ?_, ?_⟩
  · rfl
  · decide
  · decide
  · decide

/-- C4: a successful `add_user` with role `teacher` and a comma-separated
course list commits one new Course row per entry that is nonempty after
stripping, in order, each owned by the new teacher and carrying 3 credits;
for the list `"Math, Science"` that is exactly two rows. -/
theorem teacher_courses_created {hash : String → String} {s s2 : SMS}
    {un pw nm em : String} {ph : Option String} {gl : Option Int}
    {at2 : Option String} {cs : String}
    (hok : add_user hash s un pw "teacher" nm em ph gl at2 (some cs)
      = .ok s2) :
    s2.courses = s.courses ++
      courseRowsFrom un s.next_course_id (trimmedEntries cs) ∧
    (courseRowsFrom un s.next_course_id (trimmedEntries cs)).map
        (fun c => c.course_name) = trimmedEntries cs ∧
    ∀ c ∈ courseRowsFrom un s.next_course_id (trimmedEntries cs),
      c.teacher_username = some un ∧ c.credits = 3 := by
  have hw := add_user_ok_writes hok
  exact ⟨writes_teacher_courses hw,
    courseRowsFrom_map un (trimmedEntries cs) s.next_course_id,
    courseRowsFrom_fields un (trimmedEntries cs) s.next_course_id⟩

theorem insertUser_dup {s : SMS} {row : UserRow}
    (hd : s.users.any (fun u => u.username == row.username) = true) :
    insertUser s row
      = .error (.integrityError "UNIQUE constraint failed: users.username") := by
  unfold insertUser
  rw [if_pos hd]

theorem insertUser_dupEmail {s : SMS} {row : UserRow}
    (hd1 : s.users.any (fun u => u.username == row.username) = false)
    (hd2 : s.users.any (fun u => u.email == row.email) = true) :
    insertUser s row
      = .error (.integrityError "UNIQUE constraint failed: users.email") := by
  unfold insertUser
  rw [if_neg (by rw [hd1]; exact Bool.false_ne_true), if_pos hd2]

/-- C7: `add_user` raises `PermissionError` whenever nobody is logged in or
the actor's role is not `admin`; under an admin actor it raises
`ValueError` on a missing required field, a malformed email, or a truthy
malformed phone, and re-raises the duplicate-username/duplicate-email
integrity violation as a `ValueError` — and since an error result carries
no committed state, none of these error cases writes any row. -/
theorem add_user_errors (hash : String → String) (s : SMS)
    (un pw rl nm em : String) (ph : Option String) (gl : Option Int)
    (at2 cs : Option String) :
    (adminActor s = false →
      add_user hash s un pw rl nm em ph gl at2 cs
        = .error (.permissionError "Admin access required")) ∧
    (adminActor s = true → missingFields un pw rl nm em = true →
      add_user hash s un pw rl nm em ph gl at2 cs
        = .error (.valueError "Missing required fields")) ∧
    (adminActor s = true → missingFields un pw rl nm em = false →
      validate_email em = false →
      add_user hash s un pw rl nm em ph gl at2 cs
        = .error (.valueError "Invalid email format")) ∧
    (adminActor s = true → missingFields un pw rl nm em = false →
      validate_email em = true → phoneBad ph = true →
      add_user hash s un pw rl nm em ph gl at2 cs
        = .error (.valueError "Invalid phone format")) ∧
    (adminActor s = true → missingFields un pw rl nm em = false →
      validate_email em = true → phoneBad ph = false →
      (dupUsername s un || dupEmail s em) = true →
      isValueError (add_user hash s un pw rl nm em ph gl at2 cs) = true) := by
  cases hlu : s.logged_in_user with
  | none =>
    have hact : adminActor s = false := by unfold adminActor; rw [hlu]
    refine ⟨?_, ?_, ?_, ?_, ?_⟩
    · intro _
      unfold add_user
      rw [hlu]
    · intro ha; rw [hact] at ha; cases ha
    · intro ha; rw [hact] at ha; cases ha
    · intro ha; rw [hact] at ha; cases ha
    · intro ha; rw [hact] at ha; cases ha
  | some lu =>
    have hact : adminActor s = (lu.role == "admin") := by
      unfold adminActor; rw [hlu]
    by_cases hrole : lu.role = "admin"
    · have hgate : ¬((lu.role != "admin") = true) := by simp [hrole]
      unfold missingFields
      refine ⟨?_, ?_, ?_, ?_, ?_⟩
      · intro ha
        rw [hact] at ha
        simp [hrole] at ha
      · intro _ hm
        unfold add_user
        rw [hlu]
        dsimp only
        rw [if_neg hgate, if_pos hm]
      · intro _ hm he
        unfold add_user
        rw [hlu]
        dsimp only
        rw [if_neg hgate, if_neg (by rw [hm]; exact Bool.false_ne_true),
          if_pos (by rw [he]; rfl)]
      · intro _ hm he hp
        unfold add_user
        rw [hlu]
        dsimp only
        rw [if_neg hgate, if_neg (by rw [hm]; exact Bool.false_ne_true),
          if_neg (by rw [he]; simp), if_pos hp]
      · intro _ hm he hp hdup
        unfold add_user
        rw [hlu]
        dsimp only
        rw [if_neg hgate, if_neg (by rw [hm]; exact Bool.false_ne_true),
          if_neg (by rw [he]; simp), if_neg (by rw [hp]; exact Bool.false_ne_true)]
        have hwr : ∃ m, add_user_writes hash s un pw rl nm em ph gl at2 cs
            = .error (.integrityError m) := by
          unfold add_user_writes
          by_cases hdu : dupUsername s un = true
          · have hdu' : (s.users.any fun u => u.username ==
                (⟨un, hash pw, rl, nm, em, ph⟩ : UserRow).username) = true := hdu
            rw [insertUser_dup hdu']
            exact ⟨_, rfl⟩
          · have hdu2 : (s.users.any fun u => u.username ==
                (⟨un, hash pw, rl, nm, em, ph⟩ : UserRow).username) = false := by
              simpa [dupUsername] using hdu
            have hde : (s.users.any fun u => u.email ==
                (⟨un, hash pw, rl, nm, em, ph⟩ : UserRow).email) = true := by
              have hdu3 : dupUsername s un = false := by simpa using hdu
              rw [hdu3] at hdup
              simpa [dupEmail] using hdup
            rw [insertUser_dupEmail hdu2 hde]
            exact ⟨_, rfl⟩
        obtain ⟨m, hm2⟩ := hwr
        rw [hm2]
        rfl
    · have hgate : (lu.role != "admin") = true := by simp [hrole]
      refine ⟨?_, ?_, ?_, ?_, ?_⟩
      · intro _
        unfold add_user
        rw [hlu]
        dsimp only
        rw [if_pos hgate]
      all_goals
        intro ha
        rw [hact] at ha
        exact absurd (eq_of_beq ha) hrole

theorem outerRows_len_one {α : Type} (l : List α) (h : l.length ≤ 1) :
    (outerRows l).length = 1 := by
  cases l with
  | nil => rfl
  | cons a t =>
    cases t with
    | nil => rfl
    | cons b t2 =>
      exfalso
      simp [List.length_cons] at h

theorem flatMap_len_ones {α β : Type} (f : α → List β) :
    ∀ l : List α, (∀ a ∈ l, (f a).length = 1) →
      (l.flatMap f).length = l.length := by
  intro l
  induction l with
  | nil => intro _; rfl
  | cons a t ih =>
    intro h
    have h1 := h a (List.mem_cons_self a t)
    have h2 := ih (fun x hx => h x (List.mem_cons_of_mem a hx))
    simp [List.flatMap_cons, List.length_append, h1, h2, Nat.add_comm]

theorem recordsFor_len_one (s : SMS) (su : String) (e : EnrollmentRow)
    (hc : (s.courses.find? (fun c => c.course_id == e.course_id)).isSome = true)
    (ha : (attMatches s su e.course_id).length ≤ 1)
    (ht : (ttMatches s e.course_id).length ≤ 1) :
    (recordsFor s su e).length = 1 := by
  unfold recordsFor
  obtain ⟨c, hc2⟩ := Option.isSome_iff_exists.mp hc
  rw [hc2]
  obtain ⟨a0, hA⟩ := List.length_eq_one.mp (outerRows_len_one _ ha)
  obtain ⟨t0, hT⟩ := List.length_eq_one.mp (outerRows_len_one _ ht)
  rw [hA, hT]
  rfl

/-- C6 (amended): `export_report` on a username with no Student row returns
failure and writes nothing; on an existing student with exactly two
enrollments it writes the header followed by one block per result row of
the join, a block with a NULL grade rendering `N/A` — and the result rows
are exactly the two enrollments provided each enrolled course exists and
carries at most one attendance row for the student and at most one
timetable row, since the two LEFT JOINs multiply blocks otherwise. -/
theorem export_report_blocks (s : SMS) (su : String) :
    ((∀ st ∈ s.students, st.username ≠ su) → export_report s su = none) ∧
    (∀ st, s.students.find? (fun r => r.username == su) = some st →
      (s.enrollments.filter (fun e => e.student_username == su)).length = 2 →
      (∀ e ∈ s.enrollments.filter (fun e => e.student_username == su),
        (s.courses.find? (fun c => c.course_id == e.course_id)).isSome = true ∧
        (attMatches s su e.course_id).length ≤ 1 ∧
        (ttMatches s e.course_id).length ≤ 1) →
      (reportRecords s su).length = 2 ∧
      export_report s su = some (reportHeader su st ++
        String.join ((reportRecords s su).map recordBlock)) ∧
      ∀ r ∈ reportRecords s su, r.grade = none →
        renderGrade r.grade = "N/A") := by
  constructor
  · intro h
    unfold export_report
    have hf : s.students.find? (fun st => st.username == su) = none := by
      rw [List.find?_eq_none]
      intro st hst
      simpa using h st hst
    rw [hf]
  · intro st hst hlen hcond
    refine ⟨?_, ?_, ?_⟩
    · unfold reportRecords
      rw [flatMap_len_ones (recordsFor s su) _
        (fun e he => recordsFor_len_one s su e
          (hcond e he).1 (hcond e he).2.1 (hcond e he).2.2)]
      exact hlen
    · unfold export_report
      rw [hst]
    · intro r _ hg
      unfold renderGrade
      rw [hg]

set_option maxRecDepth 8000 in
/-- C6 counterexample: in `sC6` student `s1` has exactly two enrollments,
but the course of the first enrollment carries two attendance rows for
`s1`, so the report query yields three result rows — the written report
repeats the `Algebra` block instead of containing exactly one block per
enrollment. -/
theorem export_report_blocks_cex :
    (sC6.students.find? (fun st => st.username == "s1")).isSome = true ∧
    (sC6.enrollments.filter (fun e => e.student_username == "s1")).length = 2 ∧
    (reportRecords sC6 "s1").length = 3 ∧
    (reportRecords sC6 "s1").map (fun r => r.course_name)
      = ["Algebra", "Algebra", "Bio"] ∧
    export_report sC6 "s1" = some (reportHeader "s1"
      ⟨"STU00s109", "s1", 9, some "t1"⟩ ++
      String.join ((reportRecords sC6 "s1").map recordBlock)) := by
  refine ⟨?_, ?_, ?_, ?_, ?_⟩
  · decide
  · decide
  · decide
  · decide
  · rfl

set_option maxRecDepth 8000 in
/-- C2 counterexample: under the admin session, creating a user with role
`student` and no grade level succeeds, leaves a `users` row with role
`student`, and leaves no `students` row at all — the claimed iff between
Student rows and student-role User rows fails after this completed
operation. -/
theorem student_rows_match_roles_cex :
    resC2 = Except.ok sC2 ∧
    sC2.users.any (fun u => u.username == "stu1" && u.role == "student")
      = true ∧
    sC2.students.any (fun st => st.username == "stu1") = false := by
  refine ⟨?_, ?_, ?_⟩
  · rfl
  · decide
  · decide

theorem reach_sAdmin : Reach hashW sAdmin :=
  Reach.login_step "admin" "admin123" Reach.init

set_option maxRecDepth 8000 in
theorem reach_sT : Reach hashW sT :=
  Reach.add_user_step "t1" "pw" "teacher" "T One" "t1@x.y" none none none
    (some "Algebra, Bio") reach_sAdmin rfl

set_option maxRecDepth 8000 in
theorem reach_sS : Reach hashW sS :=
  Reach.add_user_step "stu3" "pw" "student" "S Three" "s3@x.y" none (some 9)
    (some "t1") none reach_sT rfl

set_option maxRecDepth 8000 in
theorem student_rows_match_roles_w :
    studentRolesOk sS = true ∧
    sS.students.any (fun st => st.username == "stu3") = true :=
  ⟨student_rows_match_roles.1 hashW sS reach_sS,
   student_rows_match_roles.2 hashW sT sS "stu3" "pw" "S Three" "s3@x.y"
     none 9 (some "t1") none rfl (by decide)⟩

set_option maxRecDepth 8000 in
theorem auto_enroll_exact_w :
    (sS.enrollments = sT.enrollments ++
      enrollRowsFrom "stu3" sT.next_enrollment_id (coursesOf sT "t1") ∧
     (sS.enrollments.filter (fun e => e.student_username == "stu3")).map
        (fun e => (e.course_id, e.grade))
      = (coursesOf sT "t1").map (fun c => (c.course_id, (none : Option Int)))) ∧
    (sC3x.enrollments = sT.enrollments ∧
     sC3x.enrollments.filter (fun e => e.student_username == "stu9") = []) :=
  ⟨(@auto_enroll_exact hashW sT sS "stu3" "pw" "S Three" "s3@x.y" none
      (some 9) "t1" none reach_sT rfl).1 (by decide),
   (@auto_enroll_exact hashW sT sC3x "stu9" "pw" "S Nine" "s9@x.y" none
      none "t1" none reach_sT rfl).2 (by decide)⟩

set_option maxRecDepth 8000 in
theorem teacher_courses_created_w :
    (sT2.courses = sAdmin.courses ++
      courseRowsFrom "t2" sAdmin.next_course_id
        (trimmedEntries "Math, Science")) ∧
    (courseRowsFrom "t2" sAdmin.next_course_id
      (trimmedEntries "Math, Science")).length = 2 :=
  ⟨(@teacher_courses_created hashW sAdmin sT2 "t2" "pw" "T Two" "t2@x.y"
      none none none "Math, Science" rfl).1, by decide⟩

theorem teacher_mutations_succeed_w :
    assign_grade sTeach "s9" 5 50 = .ok sTeach ∧
    (assign_grade sTeach "s9" 5 50).isOk = true ∧
    mark_attendance sTeach "2026-10-12" "s9" 5 "Present" = .ok { sTeach with
      attendance := sTeach.attendance ++
        [⟨sTeach.next_attendance_id, "s9", 5, "2026-10-12", "Present"⟩],
      next_attendance_id := sTeach.next_attendance_id + 1 } :=
  ⟨(teacher_mutations_succeed sTeach ⟨"t1", "teacher", "T"⟩ rfl rfl
      "s9" 5 50 "2026-10-12" "Present").1 rfl,
   (teacher_mutations_succeed sTeach ⟨"t1", "teacher", "T"⟩ rfl rfl
      "s9" 5 50 "2026-10-12" "Present").2.1 (by decide) (by decide),
   (teacher_mutations_succeed sTeach ⟨"t1", "teacher", "T"⟩ rfl rfl
      "s9" 5 50 "2026-10-12" "Present").2.2 rfl⟩

set_option maxRecDepth 8000 in
theorem add_user_errors_w :
    add_user hashW (initState hashW) "u1" "p" "student" "N" "e@x.y"
      none none none none
      = .error (.permissionError "Admin access required") ∧
    isValueError (add_user hashW sAdmin "admin" "p" "teacher" "N" "n@x.y"
      none none none none) = true :=
  ⟨(add_user_errors hashW (initState hashW) "u1" "p" "student" "N" "e@x.y"
      none none none none).1 rfl,
   (add_user_errors hashW sAdmin "admin" "p" "teacher" "N" "n@x.y"
      none none none none).2.2.2.2 (by decide) rfl (by decide) rfl (by decide)⟩

theorem enroll_student_spec_w :
    enroll_student sDup "s1" 1 = .ok { sDup with
      enrollments := sDup.enrollments ++
        [⟨sDup.next_enrollment_id, "s1", 1, none⟩],
      next_enrollment_id := sDup.next_enrollment_id + 1 } ∧
    enroll_student sDup "ghost" 1
      = .error (.valueError "Invalid student username") :=
  ⟨(enroll_student_spec sDup "s1" 1).2.2 (by decide) (by decide),
   (enroll_student_spec sDup "ghost" 1).1 (by decide)⟩

theorem enroll_student_no_gate_w :
    isPermError (enroll_student sDup "s1" 1) = false ∧
    enroll_student sDup "s1" 1 = .ok (insertEnrollment sDup "s1" 1) :=
  ⟨(enroll_student_no_gate sDup "s1" 1).1,
   (enroll_student_no_gate sDup "s1" 1).2 (by decide) (by decide)⟩

set_option maxRecDepth 8000 in
theorem export_report_blocks_w :
    (reportRecords sS "stu3").length = 2 ∧
    export_report sS "stu3" = some (reportHeader "stu3"
      ⟨"STUstu309", "stu3", 9, some "t1"⟩ ++
      String.join ((reportRecords sS "stu3").map recordBlock)) :=
  ⟨((export_report_blocks sS "stu3").2 ⟨"STUstu309", "stu3", 9, some "t1"⟩
      (by decide) (by decide) (by decide)).1,
   ((export_report_blocks sS "stu3").2 ⟨"STUstu309", "stu3", 9, some "t1"⟩
      (by decide) (by decide) (by decide)).2.1⟩

set_option maxRecDepth 8000 in
theorem failed_login_keeps_session_w :
    (login hashW sAdmin "ghost" "x").1.logged_in_user = sAdmin.logged_in_user ∧
    (login hashW sAdmin "ghost" "x").2 = false :=
  failed_login_keeps_session hashW sAdmin "ghost" "x" (by decide)

end SchoolMS
